import Mathlib

/-!
Verification development for the `x-filtered-stream-railway` connector.

The repository holds several revisions of a long-lived JavaScript service that
subscribes to a provider's filtered post stream, reconstructs each post's text,
optionally groups same-conversation posts, and relays records to an HTTP sink.
This file gives a shallow embedding of the parts the claims are about:

* the text reconstructors `getFullTweetText` (the plain revision in
  `src/unnamed/part_000` / `part_003`, here namespace `V0`, and the
  one-URL-conversion revision in `src/app.js` lines 19-72, here namespace `V1`);
* the relay `forwardTweet` (`src/app.js` lines 75-98);
* the thread grouper `processGroup` (`src/unnamed/part_002` lines 17-46);
* the reconnect back-off of `runStream` (`src/app.js` lines 160-177);
* the idempotent connection-release paths (`src/app.js` lines 146-156, 180-187);
* a small-step model of the liveness monitor / connection supervisor
  interaction (`src/app.js` lines 101-177, timer-reset strategy).

JavaScript-specific behaviour is modelled explicitly: `String.prototype.replace`
with a string pattern replaces only the first occurrence (`jsReplace`);
`String.prototype.includes` is substring containment (`hasSubstr`); a missing or
empty `expanded_url` field is falsy (modelled as the empty string); an absent
`tweet.entities`/`tweet.entities.urls` or `includes.tweets` behaves exactly like
an empty list in every guarded loop of the source, so those fields are embedded
as plain lists.
-/

/-- JS `String.prototype.replace(pat, rep)` with a string pattern: replace the
first occurrence of `pat` (an empty pattern matches at the start). -/
def repFirst (pat rep : List Char) : List Char → List Char
  | [] => if pat = [] then rep else []
  | c :: rest =>
    if pat.isPrefixOf (c :: rest) then rep ++ (c :: rest).drop pat.length
    else c :: repFirst pat rep rest

/-- JS `fullText.replace(url, other)` on strings. -/
def jsReplace (s pat rep : String) : String :=
  String.mk (repFirst pat.data rep.data s.data)

/-- JS `String.prototype.includes`: substring containment. -/
def hasSubChars (pat : List Char) : List Char → Bool
  | [] => pat = []
  | c :: rest => pat.isPrefixOf (c :: rest) || hasSubChars pat rest

/-- String wrapper for `hasSubChars`. -/
def hasSubstr (s pat : String) : Bool :=
  hasSubChars pat.data s.data

/-- JS `text.replace(/\n/g, " ")`: every newline becomes a single space. -/
def collapseNl (s : String) : String :=
  String.mk (s.data.map (fun c => if c = '\n' then ' ' else c))

/-- JS `String.prototype.trim()`: strip leading and trailing whitespace. -/
def jsTrim (s : String) : String :=
  String.mk (((s.data.dropWhile Char.isWhitespace).reverse.dropWhile Char.isWhitespace).reverse)

/-- JS `String.prototype.startsWith(pat)`. -/
def jsStartsWith (s pat : String) : Bool :=
  pat.data.isPrefixOf s.data

/-- JS `BigInt` applied to a decimal identifier string (ids from the provider
are decimal digit strings; comparison must be unbounded-integer). -/
def digitsToNat (s : String) : Nat :=
  s.data.foldl (fun n c => n * 10 + (c.toNat - 48)) 0

/-! ## Data model (provider payloads) -/

/-- A reference descriptor `{id, type}` from `tweet.referenced_tweets`. -/
structure RefDesc where
  id : String
  type : String
  deriving DecidableEq

/-- A URL entity `{url, display_url, expanded_url}` from `tweet.entities.urls`.
`expanded_url = ""` models a missing/empty (falsy) `expanded_url` field. -/
structure UrlEntity where
  url : String
  display_url : String
  expanded_url : String
  deriving DecidableEq

/-- A raw post from the stream.  `note_tweet` is the optional extended text
(`some ""` models a `note_tweet` object with falsy `text`).  The lists embed
the optional `referenced_tweets` and `entities.urls` fields (absent behaves
exactly like empty in the source's guarded loops). -/
structure Tweet where
  id : String
  author_id : String
  created_at : String
  conversation_id : String
  text : String
  note_tweet : Option String
  referenced_tweets : List RefDesc
  entities_urls : List UrlEntity
  deriving DecidableEq

/-- An author record from `includes.users`. -/
structure User where
  id : String
  username : String
  deriving DecidableEq

/-- The `includes` side table delivered with each event. -/
structure Includes where
  tweets : List Tweet
  users : List User
  deriving DecidableEq

/-- `tweet.note_tweet && tweet.note_tweet.text ? tweet.note_tweet.text : tweet.text`. -/
def baseText (t : Tweet) : String :=
  match t.note_tweet with
  | some s => if s = "" then t.text else s
  | none => t.text

/-- `includes.tweets.find(t => t.id === refTweet.id)`. -/
def findTweet (inc : Includes) (rid : String) : Option Tweet :=
  inc.tweets.find? (fun t => t.id = rid)

/-- `includes.users.find(u => u.id === authorId)`. -/
def findUser (inc : Includes) (uid : String) : Option User :=
  inc.users.find? (fun u => u.id = uid)

/-- `user ? user.username : "unknown"` after a user lookup. -/
def usernameOr (inc : Includes) (uid : String) : String :=
  match findUser inc uid with
  | some u => u.username
  | none => "unknown"

/-! ## V0: the plain text reconstructor (src/unnamed/part_000 lines 15-45,
src/unnamed/part_003 lines 19-49; no URL substitution) -/

namespace V0

/-- One iteration of the `tweet.referenced_tweets.forEach(refTweet => ...)`
loop: skip unresolved targets, collapse newlines in the referenced text, then
append a quote annotation or overwrite with the retweet rendering. -/
def processRef (inc : Includes) (acc : String) (rd : RefDesc) : String :=
  match findTweet inc rd.id with
  | none => acc
  | some rt =>
    let refText := collapseNl (baseText rt)
    if rd.type = "quoted" then
      acc ++ " [quoted tweet by @" ++ usernameOr inc rt.author_id ++ "]" ++ refText
        ++ "[/quoted tweet]"
    else if rd.type = "retweeted" then
      "RT @" ++ usernameOr inc rt.author_id ++ " " ++ refText
    else acc

/-- `getFullTweetText(tweet, includes)` of the plain revision. -/
def getFullTweetText (t : Tweet) (inc : Includes) : String :=
  t.referenced_tweets.foldl (processRef inc) (baseText t)

end V0

/-! ## V1: the one-URL-conversion reconstructor (src/app.js lines 19-72).
A shared `conversionPerformed` flag allows at most one non-picture URL
substitution across the main tweet and all referenced tweets. -/

namespace V1

/-- Main-loop media test: `display_url.includes("pic.") || display_url.includes("pic.twitter.com")`. -/
def isMediaMain (d : String) : Bool :=
  hasSubstr d "pic." || hasSubstr d "pic.twitter.com"

/-- Referenced-loop media test: `display_url.includes("pic.x.com")`. -/
def isMediaRef (d : String) : Bool :=
  hasSubstr d "pic.x.com"

/-- One iteration of either URL loop, threading the `conversionPerformed` flag.
Mirrors the nested guards of the source:
`if (!conversionPerformed && !(media)) { if (expanded_url && expanded_url.length <= 170) { replace; flag } }`.
The referenced loop's `break` after a conversion is behaviourally equal to
continuing with the flag set, since every iteration re-checks the flag. -/
def convStep (isMedia : String → Bool) (st : String × Bool) (e : UrlEntity) : String × Bool :=
  if st.2 = true then st
  else if isMedia e.display_url = true then st
  else if e.expanded_url = "" then st
  else if e.expanded_url.length ≤ 170 then (jsReplace st.1 e.url e.expanded_url, true)
  else st

/-- An entity that consumes the conversion budget in a loop with media test
`isMedia`: not a media link, `expanded_url` truthy and at most 170 long. -/
def qualOf (isMedia : String → Bool) (e : UrlEntity) : Bool :=
  !isMedia e.display_url && !(e.expanded_url == "") && decide (e.expanded_url.length ≤ 170)

/-- One iteration of the `tweet.referenced_tweets.forEach` loop of the V1
reconstructor: resolve the target, try one URL conversion in the referenced
text (only when the shared flag is still clear), collapse newlines, then
append a quote annotation or overwrite with the retweet rendering.  The URL
conversion runs (and can consume the budget) for any resolved reference,
before and regardless of the `quoted`/`retweeted` type dispatch. -/
def processRef (inc : Includes) (st : String × Bool) (rd : RefDesc) : String × Bool :=
  match findTweet inc rd.id with
  | none => st
  | some rt =>
    let pr := rt.entities_urls.foldl (convStep isMediaRef) (baseText rt, st.2)
    let refText := collapseNl pr.1
    let txt :=
      if rd.type = "quoted" then
        st.1 ++ " [quoted tweet by @" ++ usernameOr inc rt.author_id ++ "]" ++ refText
          ++ "[/quoted tweet]"
      else if rd.type = "retweeted" then
        "RT @" ++ usernameOr inc rt.author_id ++ " " ++ refText
      else st.1
    (txt, pr.2)

/-- `getFullTweetText(tweet, includes)` of src/app.js lines 19-72. -/
def getFullTweetText (t : Tweet) (inc : Includes) : String :=
  let m := t.entities_urls.foldl (convStep isMediaMain) (baseText t, false)
  (t.referenced_tweets.foldl (processRef inc) m).1

/-- Reference rendering with the budget already spent: the referenced text is
used as-is (newlines collapsed), no substitution happens.  Spec-side
formulation used to state the budget claim. -/
def processRefSpec (inc : Includes) (st : String × Bool) (rd : RefDesc) : String × Bool :=
  match findTweet inc rd.id with
  | none => st
  | some rt =>
    let pr :=
      if st.2 = true then (baseText rt, true)
      else
        match rt.entities_urls.find? (qualOf isMediaRef) with
        | none => (baseText rt, false)
        | some e => (jsReplace (baseText rt) e.url e.expanded_url, true)
    let refText := collapseNl pr.1
    let txt :=
      if rd.type = "quoted" then
        st.1 ++ " [quoted tweet by @" ++ usernameOr inc rt.author_id ++ "]" ++ refText
          ++ "[/quoted tweet]"
      else if rd.type = "retweeted" then
        "RT @" ++ usernameOr inc rt.author_id ++ " " ++ refText
      else st.1
    (txt, pr.2)

/-- Spec-side formulation of the at-most-one-conversion reconstructor, written
the way the claim describes it: the single budget is consumed by the *first*
qualifying URL entity in scan order (main entities first, then each resolved
referenced tweet's entities), the substitution is a plain first-occurrence
`replace` (a no-op when the shortened URL is not present in the text, yet the
budget is still spent), and once the budget is spent no later entity is
substituted. -/
def getFullTweetTextSpec (t : Tweet) (inc : Includes) : String :=
  let m :=
    match t.entities_urls.find? (qualOf isMediaMain) with
    | none => (baseText t, false)
    | some e => (jsReplace (baseText t) e.url e.expanded_url, true)
  (t.referenced_tweets.foldl (processRefSpec inc) m).1

end V1

/-! ## Relay: `forwardTweet` (src/app.js lines 75-98) -/

/-- The outbound JSON payload `{timestamp, username, tweetId, conversationId, tweetText}`. -/
structure Payload where
  timestamp : String
  username : String
  tweetId : String
  conversationId : String
  tweetText : String
  deriving DecidableEq

/-- Result of a completed `forwardTweet` call: the payload it built and
whether the `axios.post` succeeded (a failed POST is caught and only logged). -/
structure FwdOutcome where
  payload : Payload
  delivered : Bool
  deriving DecidableEq

/-- `forwardTweet(tweet, includes)` from src/app.js lines 75-98.  The stream
loop destructures `{ data, includes }`, so `includes` may be absent
(`Option Includes`); the function reads `includes.users` on its first line,
*outside* the `try` block, so a missing side table raises a `TypeError` that
propagates to the caller (`.error`).  The `axios.post` call and its failure
handling sit inside `try`/`catch`, so the HTTP outcome (`postSucceeds`) never
changes the fact that the call returns normally. -/
def forwardTweet (tweet : Tweet) (includes : Option Includes) (postSucceeds : Bool) :
    Except String FwdOutcome :=
  match includes with
  | none => Except.error "TypeError: cannot read properties of undefined (reading users)"
  | some inc =>
    let username := usernameOr inc tweet.author_id
    let fullTweetText := V1.getFullTweetText tweet inc
    let payload : Payload :=
      { timestamp := tweet.created_at
        username := username
        tweetId := tweet.id
        conversationId := tweet.conversation_id
        tweetText := fullTweetText }
    Except.ok { payload := payload, delivered := postSucceeds }

/-! ## Thread grouper: `processGroup` (src/unnamed/part_002 lines 17-46) -/

/-- A buffered post as built by the grouper's stream loop
(src/unnamed/part_002 lines 60-66). -/
structure GTweet where
  id : String
  conversation_id : String
  created_at : String
  text : String
  username : String
  deriving DecidableEq

/-- The sort key: `BigInt(tweet.id)` (ids are decimal digit strings). -/
def idKey (t : GTweet) : Nat := digitsToNat t.id

/-- The ascending order the comparator
`group.tweets.sort((a, b) => BigInt(a.id) - BigInt(b.id))` encodes (but see
`processGroup`: the comparator itself throws whenever it is actually invoked). -/
def idLe (a b : GTweet) : Prop := idKey a ≤ idKey b

instance : DecidableRel idLe := fun a b => Nat.decLe (idKey a) (idKey b)

/-- The pure part of `processGroup(conversationId, group)`.  The comparator
`(a, b) => BigInt(a.id) - BigInt(b.id)` returns a BigInt, and ES2015+
`Array.prototype.sort` (SortCompare / CompareArrayElements) applies `ToNumber`
to the comparator's result — which throws `TypeError` for a BigInt.  A correct
sort invokes the comparator iff the array has at least two elements, so
finalizing a group of two or more buffered posts throws (`Except.error`; the
async function's promise rejects, unhandled by the `setTimeout` caller, the
group having already been deleted) and no record is ever emitted.  Only for a
group of at most one post does the sort trivially succeed (zero comparator
calls), after which the discard check and payload construction run.  The
leading `groups.delete(conversationId)` and the webhook POST are the
stateful/IO wrapper around this computation; the `[]` branch is unreachable
(a group is created with one post). -/
def processGroup (conversationId : String) (tweets : List GTweet) :
    Except String (Option Payload) :=
  if 2 ≤ tweets.length then
    Except.error "TypeError: Cannot convert a BigInt value to a number"
  else
    match List.insertionSort idLe tweets with
    | [] => Except.ok none
    | earliest :: rest =>
      if rest.isEmpty ∧ jsStartsWith (jsTrim earliest.text) "@" then Except.ok none
      else
        Except.ok (some
          { timestamp := earliest.created_at
            username := earliest.username
            tweetId := conversationId
            conversationId := conversationId
            tweetText := String.intercalate " " ((earliest :: rest).map (fun t => jsTrim t.text)) })

/-! ## Connection supervisor back-off: `runStream` (src/app.js lines 160-177) -/

/-- How one `startStream()` invocation ends, as seen by `runStream`. -/
inductive StreamEnd where
  | clean
  | abortErr
  | otherErr
  | rate429
  deriving DecidableEq

/-- `startStream` (src/app.js lines 137-145) rethrows only the rate-limit
error (`error.code === 429`); an abort or any other stream error is logged
inside `startStream`, which then returns normally. -/
def startStreamThrows : StreamEnd → Bool
  | .rate429 => true
  | _ => false

/-- One pass of the `runStream` loop body over the current `reconnectDelay`:
a normal return resets the delay to 30000 ms; a 429 throw raises it to the
60000 ms floor or doubles it (src/app.js lines 163-171). -/
def nextReconnectDelay (d : Nat) (e : StreamEnd) : Nat :=
  if startStreamThrows e then (if d < 60000 then 60000 else d * 2) else 30000

/-- The successive reconnect delays applied after each stream termination,
starting from delay state `d`. -/
def reconnectDelaysFrom (d : Nat) : List StreamEnd → List Nat
  | [] => []
  | e :: es =>
    nextReconnectDelay d e :: reconnectDelaysFrom (nextReconnectDelay d e) es

/-- The reconnect delays of a whole `runStream` run
(`let reconnectDelay = 30000` initially). -/
def reconnectDelays (tr : List StreamEnd) : List Nat :=
  reconnectDelaysFrom 30000 tr

/-! ## Connection release paths (src/app.js lines 107-117, 146-156, 180-187)

`streamInstance.destroy()` (a `twitter-api-v2` `TweetStream`) closes the
underlying request and is a no-op on an already-destroyed stream; it does not
throw on repeated calls, which is what `destroyConn` being a total function
encodes. -/

/-- The connection handle's relevant state. -/
structure Conn where
  destroyed : Bool
  deriving DecidableEq

/-- `streamInstance.destroy()`: idempotent, never throws. -/
def destroyConn (_ : Conn) : Conn := { destroyed := true }

/-- The supervisor-owned shared resources: the `streamInstance` variable and
the pending inactivity timer. -/
structure SupRes where
  handle : Option Conn
  timerArmed : Bool
  deriving DecidableEq

/-- The three connection-closing paths in src/app.js. -/
inductive Closer where
  | monitor
  | teardown
  | shutdownHook
  deriving DecidableEq

/-- Run one closing path; the `Bool` is `true` iff an unhandled fault escapes.

* `monitor` (lines 112-115): the inactivity callback —
  `if (streamInstance && typeof streamInstance.destroy === 'function') streamInstance.destroy()`.
* `teardown` (lines 146-156): the `finally` block — `clearTimeout`, destroy the
  handle inside its own `try`/`catch` (so even a throwing destroy is swallowed),
  then `streamInstance = null`.
* `shutdownHook` (lines 180-187): destroy the handle if set (destroy itself
  never throws). -/
def applyCloser : Closer → SupRes → SupRes × Bool
  | .monitor, s =>
    (match s.handle with
     | some c => ({ s with handle := some (destroyConn c) }, false)
     | none => (s, false))
  | .teardown, _ => ({ handle := none, timerArmed := false }, false)
  | .shutdownHook, s => ({ s with handle := s.handle.map destroyConn }, false)

/-- The guard at the top of `startStream` (line 102): a new cycle can start
only when the shared handle has been nulled. -/
def startGuardPasses (s : SupRes) : Bool := s.handle.isNone

/-! ## Liveness monitor / supervisor machine (src/app.js lines 101-177,
timer-reset strategy)

A small-step model of one `runStream` lifetime, with shutdown out of scope.
Time is abstracted into events: `timeoutFire` is enabled exactly when the
armed `setTimeout` reaches its deadline without having been reset — i.e. no
post or heartbeat was observed within `INACTIVITY_TIMEOUT` — which is the
premise of the liveness claim.  `activity` (a received event, which calls
`resetInactivityTimer`) re-arms the timer; a fired timer is never re-armed by
anything except new activity or a fresh connection. -/

/-- Supervisor phase: inside `startStream` before/while consuming, or waiting
out the reconnect delay in `runStream`. -/
inductive Phase where
  | connecting
  | streaming
  | waiting
  deriving DecidableEq

/-- State of the supervisor + monitor pair. -/
structure LiveState where
  phase : Phase
  timerArmed : Bool
  connAlive : Bool
  handleSet : Bool
  timerDestroys : Nat
  cycles : Nat
  deriving DecidableEq

/-- Events driving the machine. -/
inductive LiveEv where
  | connected
  | activity
  | timeoutFire
  | streamEnded
  | reconnectTimer
  deriving DecidableEq

/-- Initial state: `runStream` about to call `startStream` the first time. -/
def initState : LiveState :=
  { phase := .connecting, timerArmed := false, connAlive := false, handleSet := false
    timerDestroys := 0, cycles := 0 }

/-- One event step; `none` when the event cannot occur in this state.

* `connected`: `searchStream` resolves (line 120), `resetInactivityTimer()` is
  called (line 127) — the handle is set, the connection live, the timer armed.
* `activity`: an event arrives on the live connection; `resetInactivityTimer()`
  re-arms the timer (line 130).
* `timeoutFire`: the armed timer expires un-reset; the callback (lines 111-116)
  destroys the current stream if the handle is set.  A `setTimeout` fires at
  most once, so the timer is disarmed afterwards.
* `streamEnded`: the `for await` loop terminates (destroy-induced abort,
  upstream close or error); the `catch` swallows it and the `finally`
  (lines 146-156) clears the timer, destroys and nulls the handle; `runStream`
  then waits out the reconnect delay.
* `reconnectTimer`: the reconnect delay elapses; `runStream` loops into the
  next `startStream` call. -/
def stepE (s : LiveState) : LiveEv → Option LiveState
  | .connected =>
    if s.phase = Phase.connecting then
      some { s with phase := .streaming, handleSet := true, connAlive := true, timerArmed := true }
    else none
  | .activity =>
    if s.phase = Phase.streaming ∧ s.connAlive = true then
      some { s with timerArmed := true }
    else none
  | .timeoutFire =>
    if s.timerArmed = true then
      some
        (if s.handleSet then
          { s with timerArmed := false, connAlive := false, timerDestroys := s.timerDestroys + 1 }
        else { s with timerArmed := false })
    else none
  | .streamEnded =>
    if s.phase = Phase.streaming then
      some { s with phase := .waiting, timerArmed := false, connAlive := false, handleSet := false }
    else none
  | .reconnectTimer =>
    if s.phase = Phase.waiting then
      some { s with phase := .connecting, cycles := s.cycles + 1 }
    else none

/-- Run a list of events; `none` if any event is not enabled when reached. -/
def runE : LiveState → List LiveEv → Option LiveState
  | s, [] => some s
  | s, e :: es =>
    match stepE s e with
    | some s₂ => runE s₂ es
    | none => none

/-- Machine invariant: an armed inactivity timer only exists while streaming
on a live, current handle; while streaming the shared handle is set. -/
def LiveInv (s : LiveState) : Prop :=
  (s.timerArmed = true → s.phase = Phase.streaming ∧ s.connAlive = true ∧ s.handleSet = true) ∧
  (s.phase = Phase.streaming → s.handleSet = true)

/-! ## Concrete inputs used by counterexamples and witnesses -/

/-- An includes side table with no referenced tweets and no users. -/
def incEmpty : Includes := { tweets := [], users := [] }

/-- A referenced tweet with id `1` by author `a1`. -/
def rtOne : Tweet :=
  { id := "1", author_id := "a1", created_at := "", conversation_id := "", text := "one"
    note_tweet := none, referenced_tweets := [], entities_urls := [] }

/-- A referenced tweet with id `2` by author `a2`. -/
def rtTwo : Tweet :=
  { id := "2", author_id := "a2", created_at := "", conversation_id := "", text := "two"
    note_tweet := none, referenced_tweets := [], entities_urls := [] }

/-- A side table resolving `rtOne`, `rtTwo` and their authors `u1`, `u2`. -/
def incPair : Includes :=
  { tweets := [rtOne, rtTwo]
    users := [{ id := "a1", username := "u1" }, { id := "a2", username := "u2" }] }

/-- A post with a retweet reference followed by a quote reference. -/
def tRetweetThenQuote : Tweet :=
  { id := "5", author_id := "a0", created_at := "", conversation_id := "", text := "base"
    note_tweet := none
    referenced_tweets := [{ id := "1", type := "retweeted" }, { id := "2", type := "quoted" }]
    entities_urls := [] }

/-- A post whose only reference is a retweet of `rtOne`. -/
def tRetweetOnly : Tweet :=
  { id := "6", author_id := "a0", created_at := "", conversation_id := "", text := "base"
    note_tweet := none
    referenced_tweets := [{ id := "1", type := "retweeted" }]
    entities_urls := [] }

/-- A post with a quote reference whose target is absent from the side table. -/
def tMissingTarget : Tweet :=
  { id := "7", author_id := "a0", created_at := "", conversation_id := "", text := "hello"
    note_tweet := none
    referenced_tweets := [{ id := "9", type := "quoted" }]
    entities_urls := [] }

/-- A plain post whose own base text contains a newline. -/
def tNewline : Tweet :=
  { id := "8", author_id := "a0", created_at := "ts", conversation_id := "c8", text := "line1\nline2"
    note_tweet := none, referenced_tweets := [], entities_urls := [] }

/-- A buffered grouper post with the lower id. -/
def gLow : GTweet :=
  { id := "9", conversation_id := "c", created_at := "t9", text := " a ", username := "u9" }

/-- A buffered grouper post with the higher id. -/
def gHigh : GTweet :=
  { id := "10", conversation_id := "c", created_at := "t10", text := "b", username := "u10" }

/-- A lone buffered post whose trimmed text starts with `@`. -/
def gReply : GTweet :=
  { id := "1", conversation_id := "c", created_at := "t1", text := " @user hi", username := "u1" }

/-! ## Helper lemmas -/

/-- A reference descriptor that does not resolve, or resolves to a type other
than `quoted`/`retweeted`, leaves the accumulated text unchanged (V0). -/
theorem V0.processRef_noop (inc : Includes) (acc : String) (rd : RefDesc)
    (h : findTweet inc rd.id = none ∨ (rd.type ≠ "quoted" ∧ rd.type ≠ "retweeted")) :
    V0.processRef inc acc rd = acc := by
  rcases h with h | ⟨hq, hr⟩
  · simp [V0.processRef, h]
  · unfold V0.processRef
    cases hft : findTweet inc rd.id with
    | none => rfl
    | some rt => simp [hq, hr]

/-- A fold of `V0.processRef` over references that are all no-ops. -/
theorem V0.foldl_processRef_noop (inc : Includes) :
    ∀ (l : List RefDesc) (acc : String),
      (∀ r ∈ l, findTweet inc r.id = none ∨ (r.type ≠ "quoted" ∧ r.type ≠ "retweeted")) →
      l.foldl (V0.processRef inc) acc = acc
  | [], _, _ => rfl
  | r :: rs, acc, h => by
    rw [List.foldl_cons, V0.processRef_noop inc acc r (h r (by simp))]
    exact V0.foldl_processRef_noop inc rs acc (fun x hx => h x (by simp [hx]))

/-- A resolving retweet reference overwrites the accumulated text
unconditionally (V0). -/
theorem V0.processRef_retweet (inc : Includes) (acc : String) (rd : RefDesc) (rt : Tweet)
    (hres : findTweet inc rd.id = some rt) (htype : rd.type = "retweeted") :
    V0.processRef inc acc rd =
      "RT @" ++ usernameOr inc rt.author_id ++ " " ++ collapseNl (baseText rt) := by
  simp [V0.processRef, hres, htype]

/-! ## Claim C4 -/

/-- Claim C4: a conversation group that holds exactly one buffered post whose
trimmed text starts with `@` is discarded silently — `processGroup` emits no
record for it (src/unnamed/part_002 lines 21-24; for a singleton group the
sort performs zero comparator calls, so the BigInt comparator defect is not
reached and the discard branch runs). -/
theorem c4_lone_reply_discard (cid : String) (t : GTweet)
    (h : jsStartsWith (jsTrim t.text) "@" = true) :
    processGroup cid [t] = Except.ok none := by
  simp [processGroup, List.insertionSort, List.orderedInsert, h]

/-- Witness for C4 at a concrete lone reply post. -/
theorem c4_lone_reply_discard_witness : processGroup "c" [gReply] = Except.ok none :=
  c4_lone_reply_discard "c" gReply (by decide)

/-! ## Claim C5 -/

/-- Counterexample to C5 as stated: `tRetweetThenQuote` carries a retweet-type
reference whose target resolves (`rtOne`, author `u1`), yet the reconstructed
text is not `"RT @u1 one"` — the quote reference processed *after* the retweet
appends its annotation to the retweet rendering. -/
theorem c5_counterexample :
    V0.getFullTweetText tRetweetThenQuote incPair ≠ "RT @u1 one" := by decide

/-- Claim C5 (amended): for a post whose retweet-type reference resolves in the
side table *and is not followed by any later reference that both resolves and
has type `quoted` or `retweeted`*, the output equals
`"RT @<handle> <referenced-text>"` with newlines in the referenced text
collapsed to spaces; in particular any quote annotation produced by an
earlier-processed reference is discarded by the retweet's overwrite. -/
theorem c5_retweet_rendering (t : Tweet) (inc : Includes) (pre post : List RefDesc)
    (rd : RefDesc) (rt : Tweet)
    (hsplit : t.referenced_tweets = pre ++ rd :: post)
    (htype : rd.type = "retweeted")
    (hres : findTweet inc rd.id = some rt)
    (hpost : ∀ r ∈ post, findTweet inc r.id = none ∨ (r.type ≠ "quoted" ∧ r.type ≠ "retweeted")) :
    V0.getFullTweetText t inc =
      "RT @" ++ usernameOr inc rt.author_id ++ " " ++ collapseNl (baseText rt) := by
  unfold V0.getFullTweetText
  rw [hsplit, List.foldl_append, List.foldl_cons,
    V0.processRef_retweet inc _ rd rt hres htype,
    V0.foldl_processRef_noop inc post _ hpost]

/-- Witness for C5 (amended) at a concrete single-retweet post. -/
theorem c5_retweet_rendering_witness :
    V0.getFullTweetText tRetweetOnly incPair = "RT @u1 one" := by
  have h := c5_retweet_rendering tRetweetOnly incPair [] []
    { id := "1", type := "retweeted" } rtOne rfl rfl (by decide) (by simp)
  rw [h]; decide

/-! ## Claim C6 -/

/-- Counterexample to C6 as stated: `tMissingTarget` carries a reference whose
target post is absent from the side table, yet the reconstructor does *not*
use the placeholder handle `"unknown"` — the reference is skipped entirely and
the output is just the base text. -/
theorem c6_counterexample :
    V0.getFullTweetText tMissingTarget incEmpty = "hello" ∧
    hasSubstr (V0.getFullTweetText tMissingTarget incEmpty) "unknown" = false := by
  constructor <;> decide

/-- Claim C6 (amended): a reference whose *target post* is absent from the
side table is skipped entirely (it contributes nothing to the output); the
placeholder handle `"unknown"` is used when the target post resolves but its
*author* is absent from `includes.users`.  No exception escapes in either case:
the reconstructor is a total function. -/
theorem c6_missing_target (inc : Includes) (acc : String) (rd : RefDesc) :
    (findTweet inc rd.id = none → V0.processRef inc acc rd = acc) ∧
    (∀ rt : Tweet, findTweet inc rd.id = some rt → findUser inc rt.author_id = none →
      (rd.type = "quoted" →
        V0.processRef inc acc rd =
          acc ++ " [quoted tweet by @" ++ "unknown" ++ "]" ++ collapseNl (baseText rt)
            ++ "[/quoted tweet]") ∧
      (rd.type = "retweeted" →
        V0.processRef inc acc rd = "RT @" ++ "unknown" ++ " " ++ collapseNl (baseText rt))) := by
  refine ⟨fun h => by simp [V0.processRef, h], fun rt hres huser => ⟨fun hq => ?_, fun hr => ?_⟩⟩
  · simp [V0.processRef, hres, hq, usernameOr, huser]
  · simp [V0.processRef, hres, hr, usernameOr, huser]

/-- Witness for C6 (amended): the unresolved quote reference of
`tMissingTarget` leaves the accumulated text `"hello"` unchanged. -/
theorem c6_missing_target_witness :
    V0.processRef incEmpty "hello" { id := "9", type := "quoted" } = "hello" :=
  (c6_missing_target incEmpty "hello" { id := "9", type := "quoted" }).1 rfl

/-! ## Claim C7 -/

/-- Counterexample to C7 as stated: the final text of `tNewline` (a post whose
own base text contains a newline, with no references) keeps the embedded
newline — only *referenced* texts are newline-collapsed by the code. -/
theorem c7_counterexample :
    (V1.getFullTweetText tNewline incEmpty).data.contains '\n' = true := by decide

/-- Claim C7 (amended): newlines are collapsed to spaces only in
referenced-tweet texts; the post's own base text passes through the V1
reconstructor unmodified whenever it has no URL entities and no references, so
a newline in the base text survives into the outbound payload. -/
theorem c7_newline_scope (t : Tweet) (inc : Includes)
    (h1 : t.entities_urls = []) (h2 : t.referenced_tweets = []) :
    V1.getFullTweetText t inc = baseText t := by
  simp [V1.getFullTweetText, h1, h2]

/-- Witness for C7 (amended) at the concrete newline-carrying post. -/
theorem c7_newline_scope_witness :
    V1.getFullTweetText tNewline incEmpty = baseText tNewline :=
  c7_newline_scope tNewline incEmpty rfl rfl

/-! ## Claim C3 -/

/-- Claim C3 (code bug): the sorted-merge finalization the claim (and spec)
describes is never reached for a group of two or more buffered posts.  The
comparator `(a, b) => BigInt(a.id) - BigInt(b.id)` returns a BigInt, and
`Array.prototype.sort` applies `ToNumber` to the comparator's result, which
throws `TypeError` for a BigInt; so at the failing input — conversation `"c"`
with the two buffered posts of ids `"10"` and `"9"` — `processGroup` throws
instead of emitting the merged record with the posts sorted ascending by
unbounded-integer id (src/unnamed/part_002 line 19). -/
theorem c3_group_finalization :
    processGroup "c" [gHigh, gLow] =
      Except.error "TypeError: Cannot convert a BigInt value to a number" := rfl

/-! ## Claim C2 -/

/-- A rate-limit termination never yields a delay below the 60 s floor. -/
theorem nextReconnectDelay_ge (d : Nat) (e : StreamEnd) (h : startStreamThrows e = true) :
    60000 ≤ nextReconnectDelay d e := by
  simp only [nextReconnectDelay, h, if_true]
  by_cases hd : d < 60000
  · simp [hd]
  · rw [if_neg hd]
    have h1 : 60000 ≤ d := Nat.le_of_not_lt hd
    have h2 : d ≤ d * 2 := by rw [Nat.mul_two]; exact Nat.le_add_right d d
    exact Nat.le_trans h1 h2

/-- At or above the floor, a rate-limit termination doubles the delay. -/
theorem nextReconnectDelay_double (d : Nat) (e : StreamEnd) (h : startStreamThrows e = true)
    (hge : 60000 ≤ d) : nextReconnectDelay d e = 2 * d := by
  simp only [nextReconnectDelay, h, if_true]
  rw [if_neg (Nat.not_lt.mpr hge), Nat.mul_comm]

/-- A non-throwing termination resets the delay to 30 s. -/
theorem nextReconnectDelay_reset (d : Nat) (e : StreamEnd) (h : startStreamThrows e = false) :
    nextReconnectDelay d e = 30000 := by
  simp [nextReconnectDelay, h]

/-- Positional characterization of the reconnect delays emitted by the
`runStream` loop, from an arbitrary current delay state `d`. -/
theorem backoff_master :
    ∀ (tr : List StreamEnd) (d i : Nat), i < tr.length →
      (startStreamThrows (tr.getD i StreamEnd.clean) = false →
        (reconnectDelaysFrom d tr).getD i 0 = 30000) ∧
      (startStreamThrows (tr.getD i StreamEnd.clean) = true →
        60000 ≤ (reconnectDelaysFrom d tr).getD i 0) ∧
      (i + 1 < tr.length → startStreamThrows (tr.getD i StreamEnd.clean) = true →
        startStreamThrows (tr.getD (i + 1) StreamEnd.clean) = true →
        (reconnectDelaysFrom d tr).getD (i + 1) 0 = 2 * (reconnectDelaysFrom d tr).getD i 0) ∧
      (i + 1 < tr.length → startStreamThrows (tr.getD i StreamEnd.clean) = false →
        startStreamThrows (tr.getD (i + 1) StreamEnd.clean) = true →
        (reconnectDelaysFrom d tr).getD (i + 1) 0 = 60000)
  | [], _, i, hi => absurd hi (by simp)
  | e :: es, d, 0, _ => by
    refine ⟨fun h => ?_, fun h => ?_, fun hj h1 h2 => ?_, fun hj h1 h2 => ?_⟩
    · simp only [List.getD_cons_zero] at h
      simp only [reconnectDelaysFrom, List.getD_cons_zero]
      exact nextReconnectDelay_reset d e h
    · simp only [List.getD_cons_zero] at h
      simp only [reconnectDelaysFrom, List.getD_cons_zero]
      exact nextReconnectDelay_ge d e h
    · cases es with
      | nil => simp at hj
      | cons e2 es2 =>
        simp only [List.getD_cons_zero] at h1
        simp only [List.getD_cons_succ, List.getD_cons_zero] at h2
        rw [show reconnectDelaysFrom d (e :: e2 :: es2) =
          nextReconnectDelay d e :: nextReconnectDelay (nextReconnectDelay d e) e2 ::
            reconnectDelaysFrom (nextReconnectDelay (nextReconnectDelay d e) e2) es2 from rfl]
        simp only [List.getD_cons_succ, List.getD_cons_zero]
        exact nextReconnectDelay_double _ e2 h2 (nextReconnectDelay_ge d e h1)
    · cases es with
      | nil => simp at hj
      | cons e2 es2 =>
        simp only [List.getD_cons_zero] at h1
        simp only [List.getD_cons_succ, List.getD_cons_zero] at h2
        rw [show reconnectDelaysFrom d (e :: e2 :: es2) =
          nextReconnectDelay d e :: nextReconnectDelay (nextReconnectDelay d e) e2 ::
            reconnectDelaysFrom (nextReconnectDelay (nextReconnectDelay d e) e2) es2 from rfl]
        simp only [List.getD_cons_succ, List.getD_cons_zero]
        rw [nextReconnectDelay_reset d e h1]
        simp [nextReconnectDelay, h2]
  | e :: es, d, j + 1, hi => by
    have hj : j < es.length := Nat.lt_of_succ_lt_succ (by simpa using hi)
    have ih := backoff_master es (nextReconnectDelay d e) j hj
    simpa [reconnectDelaysFrom, List.getD_cons_succ] using ih

/-- Claim C2: in any sequence of stream terminations, a rate-limit (429)
termination yields a reconnect delay of at least the 60 s floor; two
consecutive rate-limit terminations double the delay; any non-throwing
termination (clean end, abort, or a non-429 error swallowed inside
`startStream`) resets the delay to the fixed 30 s, so the 429 after it gets
exactly the 60 s floor (src/app.js lines 160-177 with 137-145). -/
theorem c2_rate_limit_backoff (tr : List StreamEnd) (i : Nat) (hi : i < tr.length) :
    (startStreamThrows (tr.getD i StreamEnd.clean) = false →
      (reconnectDelays tr).getD i 0 = 30000) ∧
    (startStreamThrows (tr.getD i StreamEnd.clean) = true →
      60000 ≤ (reconnectDelays tr).getD i 0) ∧
    (i + 1 < tr.length → startStreamThrows (tr.getD i StreamEnd.clean) = true →
      startStreamThrows (tr.getD (i + 1) StreamEnd.clean) = true →
      (reconnectDelays tr).getD (i + 1) 0 = 2 * (reconnectDelays tr).getD i 0) ∧
    (i + 1 < tr.length → startStreamThrows (tr.getD i StreamEnd.clean) = false →
      startStreamThrows (tr.getD (i + 1) StreamEnd.clean) = true →
      (reconnectDelays tr).getD (i + 1) 0 = 60000) :=
  backoff_master tr 30000 i hi

/-- Witness for C2: two consecutive 429 terminations; the second delay
doubles the first. -/
theorem c2_rate_limit_backoff_witness :
    (reconnectDelays [StreamEnd.rate429, StreamEnd.rate429]).getD 1 0 =
      2 * (reconnectDelays [StreamEnd.rate429, StreamEnd.rate429]).getD 0 0 :=
  (c2_rate_limit_backoff [StreamEnd.rate429, StreamEnd.rate429] 0 (by decide)).2.2.1
    (by decide) rfl rfl

/-! ## Claim C8 -/

/-- Counterexample to C8 as stated: when the stream yields an event without an
`includes` side table (the loop's own `includes && includes.users` guard shows
this is an anticipated shape), `forwardTweet` reads `includes.users` *before*
its `try` block and the resulting `TypeError` propagates to the caller — a
fault while forwarding that is not swallowed inside `forward`. -/
theorem c8_counterexample :
    forwardTweet tNewline none true =
      Except.error "TypeError: cannot read properties of undefined (reading users)" := rfl

/-- Claim C8 (amended): whenever the `includes` side table is present,
`forwardTweet` returns normally regardless of the HTTP POST outcome — the
`axios.post` failure is caught, logged and swallowed inside `forward`, so a
failing forward never aborts the stream-consumption loop.  A fault raised
before the `try` block (a missing `includes` table) is the one exception and
does propagate. -/
theorem c8_forward_swallows (t : Tweet) (inc : Includes) (postOk : Bool) :
    ∃ o : FwdOutcome, forwardTweet t (some inc) postOk = Except.ok o :=
  ⟨_, rfl⟩

/-! ## Claim C9 -/

/-- Claim C9: the connection-closing paths are idempotent — invoking any two
of them in succession (e.g. the Liveness Monitor's timer callback followed by
the `finally` teardown, or the shutdown hook) raises no unhandled fault; the
teardown path clears the liveness timer and nulls the shared handle, so the
`startStream` guard lets a new cycle begin (src/app.js lines 107-117, 146-156,
180-187; `TweetStream.destroy` is a no-op on an already-destroyed stream). -/
theorem c9_idempotent_release (c₁ c₂ : Closer) (s : SupRes) :
    (applyCloser c₁ s).2 = false ∧
    (applyCloser c₂ (applyCloser c₁ s).1).2 = false ∧
    (applyCloser Closer.teardown s).1.handle = none ∧
    (applyCloser Closer.teardown s).1.timerArmed = false ∧
    startGuardPasses (applyCloser Closer.teardown s).1 = true := by
  have hsnd : ∀ (c : Closer) (u : SupRes), (applyCloser c u).2 = false := by
    intro c u
    obtain ⟨oh, ta⟩ := u
    cases c with
    | monitor => cases oh <;> rfl
    | teardown => rfl
    | shutdownHook => rfl
  exact ⟨hsnd c₁ s, hsnd c₂ _, rfl, rfl, rfl⟩

/-! ## Claim C10 -/

/-- A URL-loop step with the conversion budget already spent changes nothing. -/
theorem V1.convStep_done (m : String → Bool) (st : String × Bool) (e : UrlEntity)
    (h : st.2 = true) : V1.convStep m st e = st := by
  simp [V1.convStep, h]

/-- A whole URL loop with the conversion budget already spent changes nothing. -/
theorem V1.foldl_convStep_done (m : String → Bool) :
    ∀ (es : List UrlEntity) (st : String × Bool), st.2 = true →
      es.foldl (V1.convStep m) st = st
  | [], _, _ => rfl
  | e :: es, st, h => by
    rw [List.foldl_cons, V1.convStep_done m st e h]
    exact V1.foldl_convStep_done m es st h

/-- A URL-loop step with the budget available applies the conversion exactly
when the entity qualifies. -/
theorem V1.convStep_false (m : String → Bool) (text : String) (e : UrlEntity) :
    V1.convStep m (text, false) e =
      if V1.qualOf m e then (jsReplace text e.url e.expanded_url, true)
      else (text, false) := by
  by_cases h1 : m e.display_url = true
  · simp [V1.convStep, V1.qualOf, h1]
  · by_cases h2 : e.expanded_url = ""
    · simp [V1.convStep, V1.qualOf, h1, h2]
    · by_cases h3 : e.expanded_url.length ≤ 170
      · simp [V1.convStep, V1.qualOf, h1, h2, h3]
      · simp [V1.convStep, V1.qualOf, h1, h2, h3]

/-- A URL loop entered with the budget available performs exactly one
substitution, at the *first* qualifying entity, whether or not the shortened
URL occurs in the text. -/
theorem V1.foldl_convStep_first (m : String → Bool) :
    ∀ (es : List UrlEntity) (text : String),
      es.foldl (V1.convStep m) (text, false) =
        match es.find? (V1.qualOf m) with
        | none => (text, false)
        | some e => (jsReplace text e.url e.expanded_url, true)
  | [], _ => rfl
  | e :: es, text => by
    rw [List.foldl_cons, V1.convStep_false]
    by_cases hq : V1.qualOf m e = true
    · rw [if_pos hq, V1.foldl_convStep_done m es _ rfl, List.find?_cons_of_pos _ hq]
    · rw [if_neg hq, List.find?_cons_of_neg _ (by simpa using hq)]
      exact V1.foldl_convStep_first m es text

/-- The code's reference processing agrees pointwise with the spec-side
formulation. -/
theorem V1.processRef_eq_spec (inc : Includes) (st : String × Bool) (rd : RefDesc) :
    V1.processRef inc st rd = V1.processRefSpec inc st rd := by
  obtain ⟨txt, flag⟩ := st
  unfold V1.processRef V1.processRefSpec
  cases hft : findTweet inc rd.id with
  | none => rfl
  | some rt =>
    cases flag with
    | false => simp [V1.foldl_convStep_first V1.isMediaRef rt.entities_urls (baseText rt)]
    | true =>
      simp [V1.foldl_convStep_done V1.isMediaRef rt.entities_urls (baseText rt, true) rfl]

/-- The reference fold of the code agrees with the spec-side fold. -/
theorem V1.foldl_processRef_eq (inc : Includes) :
    ∀ (rds : List RefDesc) (st : String × Bool),
      rds.foldl (V1.processRef inc) st = rds.foldl (V1.processRefSpec inc) st
  | [], _ => rfl
  | rd :: rds, st => by
    rw [List.foldl_cons, List.foldl_cons, V1.processRef_eq_spec inc st rd]
    exact V1.foldl_processRef_eq inc rds _

/-- Claim C10: the V1 reconstructor equals its spec-side formulation — the
single conversion budget is consumed by the first URL entity (main post's
entities first, then each resolved referenced tweet's entities, in order)
that is not a media link (per the respective loop's test) and whose present
`expanded_url` is at most 170 characters; the budget is spent even when the
entity's shortened URL does not occur in the accumulated text (the `replace`
is then a no-op); once spent, no later entity of the post or of any
referenced tweet is substituted. -/
theorem c10_conversion_budget (t : Tweet) (inc : Includes) :
    V1.getFullTweetText t inc = V1.getFullTweetTextSpec t inc := by
  show (t.referenced_tweets.foldl (V1.processRef inc)
      (t.entities_urls.foldl (V1.convStep V1.isMediaMain) (baseText t, false))).1 =
    (t.referenced_tweets.foldl (V1.processRefSpec inc)
      (match t.entities_urls.find? (V1.qualOf V1.isMediaMain) with
        | none => (baseText t, false)
        | some e => (jsReplace (baseText t) e.url e.expanded_url, true))).1
  rw [V1.foldl_convStep_first V1.isMediaMain t.entities_urls (baseText t),
    V1.foldl_processRef_eq inc t.referenced_tweets]

/-! ## Claim C1 -/

/-- The machine invariant holds initially. -/
theorem liveInv_init : LiveInv initState :=
  ⟨fun h => by simp [initState] at h, fun h => by simp [initState] at h⟩

/-- The machine invariant is preserved by every enabled step. -/
theorem liveInv_step (s s₂ : LiveState) (e : LiveEv) (hInv : LiveInv s)
    (h : stepE s e = some s₂) : LiveInv s₂ := by
  cases e with
  | connected =>
    rw [stepE] at h
    split at h
    · obtain rfl := Option.some.inj h
      exact ⟨fun _ => ⟨rfl, rfl, rfl⟩, fun _ => rfl⟩
    · exact absurd h (by simp)
  | activity =>
    rw [stepE] at h
    split at h
    · next hc =>
      obtain rfl := Option.some.inj h
      exact ⟨fun _ => ⟨hc.1, hc.2, hInv.2 hc.1⟩, fun hp => hInv.2 hp⟩
    · exact absurd h (by simp)
  | timeoutFire =>
    rw [stepE] at h
    split at h
    · obtain rfl := Option.some.inj h
      by_cases hh : s.handleSet = true
      · rw [if_pos hh]
        exact ⟨fun hc => by simp at hc, fun hp => hh⟩
      · rw [if_neg hh]
        exact ⟨fun hc => by simp at hc, fun hp => hInv.2 hp⟩
    · exact absurd h (by simp)
  | streamEnded =>
    rw [stepE] at h
    split at h
    · obtain rfl := Option.some.inj h
      exact ⟨fun hc => by simp at hc, fun hp => by simp at hp⟩
    · exact absurd h (by simp)
  | reconnectTimer =>
    rw [stepE] at h
    split at h
    · next hc =>
      obtain rfl := Option.some.inj h
      refine ⟨fun ha => ?_, fun hp => by simp at hp⟩
      exact absurd (hc ▸ (hInv.1 ha).1) (by simp)
    · exact absurd h (by simp)

/-- Every state reachable from an invariant-satisfying state satisfies the
invariant. -/
theorem liveInv_runE :
    ∀ (tr : List LiveEv) (s s₂ : LiveState), LiveInv s → runE s tr = some s₂ → LiveInv s₂
  | [], _, _, hInv, h => (Option.some.inj h) ▸ hInv
  | e :: tr, s, s₂, hInv, h => by
    rw [runE] at h
    cases hst : stepE s e with
    | none => rw [hst] at h; exact absurd h (by simp)
    | some s₁ =>
      rw [hst] at h
      exact liveInv_runE tr s₁ s₂ (liveInv_step s s₁ e hInv hst) h

/-- One non-`connected` step from a quiet state (timer disarmed, connection
dead) stays quiet and performs no destroy. -/
theorem quiet_step (s s₁ : LiveState) (e : LiveEv) (hne : e ≠ LiveEv.connected)
    (ha : s.timerArmed = false) (hc : s.connAlive = false) (h : stepE s e = some s₁) :
    s₁.timerArmed = false ∧ s₁.connAlive = false ∧ s₁.timerDestroys = s.timerDestroys := by
  cases e with
  | connected => exact absurd rfl hne
  | activity =>
    rw [stepE, if_neg (by simp [hc])] at h
    exact absurd h (by simp)
  | timeoutFire =>
    rw [stepE, if_neg (by simp [ha])] at h
    exact absurd h (by simp)
  | streamEnded =>
    rw [stepE] at h
    split at h
    · obtain rfl := Option.some.inj h
      exact ⟨rfl, rfl, rfl⟩
    · exact absurd h (by simp)
  | reconnectTimer =>
    rw [stepE] at h
    split at h
    · obtain rfl := Option.some.inj h
      exact ⟨ha, hc, rfl⟩
    · exact absurd h (by simp)

/-- After the timer has fired (disarmed, connection destroyed), no run that
does not open a fresh connection can re-arm the timer or destroy again. -/
theorem runE_quiet :
    ∀ (mid : List LiveEv) (s s₂ : LiveState),
      s.timerArmed = false → s.connAlive = false → runE s mid = some s₂ →
      LiveEv.connected ∉ mid →
      s₂.timerArmed = false ∧ s₂.connAlive = false ∧ s₂.timerDestroys = s.timerDestroys
  | [], _, _, ha, hc, h, _ => by
    obtain rfl := Option.some.inj h
    exact ⟨ha, hc, rfl⟩
  | e :: mid, s, s₂, ha, hc, h, hni => by
    have hne : e ≠ LiveEv.connected := fun he => hni (he ▸ List.mem_cons_self e mid)
    have hnm : LiveEv.connected ∉ mid := fun hm => hni (List.mem_cons_of_mem e hm)
    rw [runE] at h
    cases hst : stepE s e with
    | none => rw [hst] at h; exact absurd h (by simp)
    | some s₁ =>
      rw [hst] at h
      obtain ⟨h1, h2, h3⟩ := quiet_step s s₁ e hne ha hc hst
      obtain ⟨g1, g2, g3⟩ := runE_quiet mid s₁ s₂ h1 h2 h hnm
      exact ⟨g1, g2, h3 ▸ g3⟩

/-- Claim C1: from any reachable state of the supervisor/monitor machine in
which the armed inactivity timer expires un-reset (i.e. a Streaming period saw
no post or heartbeat within the configured timeout), the timer callback
force-closes the *currently live, current* connection and the destroy counter
rises by exactly one; the timer is left disarmed and — until a new connection
is opened — can never fire or destroy again (no duplicate close by the
monitor, hence no duplicate-close error); from the post-fire state the only
possible progression is stream termination into the `finally` teardown
(`waiting`, handle nulled, timer cleared) followed by the reconnect delay
elapsing, after which the supervisor is connecting again with the handle
clear, so `startStream`'s guard admits the new cycle (src/app.js lines
101-177, timer-reset liveness strategy). -/
theorem c1_liveness_timer (pre : List LiveEv) (s : LiveState)
    (hrun : runE initState pre = some s) (harmed : s.timerArmed = true) :
    s.phase = Phase.streaming ∧ s.connAlive = true ∧ s.handleSet = true ∧
    ∃ s₁, stepE s LiveEv.timeoutFire = some s₁ ∧
      s₁.timerArmed = false ∧ s₁.connAlive = false ∧
      s₁.timerDestroys = s.timerDestroys + 1 ∧
      (∀ mid s₂, runE s₁ mid = some s₂ → LiveEv.connected ∉ mid →
        s₂.timerArmed = false ∧ s₂.timerDestroys = s.timerDestroys + 1) ∧
      (∀ e, (stepE s₁ e).isSome = true → e = LiveEv.streamEnded) ∧
      ∃ s₃, stepE s₁ LiveEv.streamEnded = some s₃ ∧
        s₃.phase = Phase.waiting ∧ s₃.handleSet = false ∧ s₃.timerArmed = false ∧
        (∀ e, (stepE s₃ e).isSome = true → e = LiveEv.reconnectTimer) ∧
        ∃ s₄, stepE s₃ LiveEv.reconnectTimer = some s₄ ∧
          s₄.phase = Phase.connecting ∧ s₄.cycles = s.cycles + 1 ∧ s₄.handleSet = false := by
  have hInv := liveInv_runE pre initState s liveInv_init hrun
  obtain ⟨hph, hal, hhs⟩ := hInv.1 harmed
  have hfire : stepE s LiveEv.timeoutFire =
      some { s with timerArmed := false, connAlive := false
                    timerDestroys := s.timerDestroys + 1 } := by
    rw [stepE, if_pos harmed, if_pos hhs]
  refine ⟨hph, hal, hhs, _, hfire, rfl, rfl, rfl, ?_, ?_, ?_⟩
  · intro mid s₂ hmid hni
    obtain ⟨h1, _, h3⟩ := runE_quiet mid _ s₂ rfl rfl hmid hni
    exact ⟨h1, h3⟩
  · intro e he
    cases e with
    | connected => rw [stepE, if_neg (by simp [hph])] at he; simp at he
    | activity => rw [stepE, if_neg (by simp)] at he; simp at he
    | timeoutFire => rw [stepE, if_neg (by simp)] at he; simp at he
    | streamEnded => rfl
    | reconnectTimer => rw [stepE, if_neg (by simp [hph])] at he; simp at he
  · have hend : stepE { s with timerArmed := false, connAlive := false
                               timerDestroys := s.timerDestroys + 1 } LiveEv.streamEnded =
        some { s with phase := Phase.waiting, timerArmed := false, connAlive := false
                      handleSet := false, timerDestroys := s.timerDestroys + 1 } := by
      rw [stepE, if_pos (by simpa using hph)]
    refine ⟨_, hend, rfl, rfl, rfl, ?_, ?_⟩
    · intro e he
      cases e with
      | connected => rw [stepE, if_neg (by simp)] at he; simp at he
      | activity => rw [stepE, if_neg (by simp)] at he; simp at he
      | timeoutFire => rw [stepE, if_neg (by simp)] at he; simp at he
      | streamEnded => rw [stepE, if_neg (by simp)] at he; simp at he
      | reconnectTimer => rfl
    · have hrec : stepE { s with phase := Phase.waiting, timerArmed := false, connAlive := false
                                 handleSet := false, timerDestroys := s.timerDestroys + 1 }
          LiveEv.reconnectTimer =
          some { s with phase := Phase.connecting, timerArmed := false, connAlive := false
                        handleSet := false, timerDestroys := s.timerDestroys + 1
                        cycles := s.cycles + 1 } := by
        rw [stepE, if_pos rfl]
      exact ⟨_, hrec, rfl, rfl, rfl⟩

/-- Witness for C1: the trace that connects and then sees the timer expire. -/
theorem c1_liveness_timer_witness :
    ({ phase := Phase.streaming, timerArmed := true, connAlive := true, handleSet := true,
       timerDestroys := 0, cycles := 0 } : LiveState).connAlive = true :=
  (c1_liveness_timer [LiveEv.connected]
    { phase := Phase.streaming, timerArmed := true, connAlive := true, handleSet := true,
      timerDestroys := 0, cycles := 0 } (by decide) rfl).2.1
